import Mathlib

/-!
Verification development for the tarantool-operator reconciliation core.

The Go sources embedded here are:
  - controllers/cluster_controller.go : the Reconcile pass (instance UUID
    assignment, join scan, drain / weight convergence, role convergence,
    bootstrap / failover stage);
  - controllers/topology/builtin.go : the built-in topology-service client
    (GetRoles, Join, SetWeight, BootstrapVshard, SetFailover) with its
    substring-based error classification.

Modelling conventions:
  - Go maps of string to string become association lists (first binding
    wins on lookup, matching the unique-key discipline of Kubernetes
    metadata maps);
  - network round trips become oracle functions carried in an `Env`
    record: the oracle gives, per call, the transport outcome that the
    Go code would have observed (an error string or a decoded response);
  - the declared-state store is modelled as reliable: r.Update calls
    succeed (no claim under verification concerns store write failures);
  - the `tarantool` and `utils` helper packages are not under src/, so
    the few helpers taken from them are modelled from the spec and are
    marked as such in their doc comments.
-/

/-! ## String helpers (Go strings.HasPrefix / strings.Contains) -/

/-- Character-list version of Go strings.HasPrefix: does `l` start with `p`? -/
def startsWithChars : List Char → List Char → Bool
  | _, [] => true
  | [], _ :: _ => false
  | a :: as, b :: bs => a == b && startsWithChars as bs

/-- Character-list version of Go strings.Contains: does `l` contain `p`
as a contiguous segment? -/
def containsChars : List Char → List Char → Bool
  | [], p => p.isEmpty
  | c :: t, p => startsWithChars (c :: t) p || containsChars t p

/-- Go strings.HasPrefix over strings. -/
def strStarts (s pat : String) : Bool :=
  startsWithChars s.toList pat.toList

/-- Go strings.Contains over strings. -/
def strContains (s pat : String) : Bool :=
  containsChars s.toList pat.toList

/-! ## Go strconv.ParseUint(s, 10, 32) -/

/-- Decimal value of a digit list (most significant first); callers ensure
all characters are digits. -/
def digitsVal (l : List Char) : Nat :=
  l.foldl (fun acc c => acc * 10 + (c.toNat - '0'.toNat)) 0

/-- Go strconv.ParseUint(s, 10, 32): succeeds exactly on a nonempty string
of decimal digits whose value fits in 32 bits; the error strings stand for
the ErrSyntax and ErrRange failures of the Go function. -/
def parseUint32 (s : String) : Except String Nat :=
  if s.isEmpty then .error "invalid syntax"
  else if s.toList.all Char.isDigit then
    let n := digitsVal s.toList
    if n < 2 ^ 32 then .ok n else .error "value out of range"
  else .error "invalid syntax"

/-! ## Association lists for Kubernetes labels / annotations -/

/-- Labels and annotations: Go map[string]string. -/
abbrev KVMap := List (String × String)

/-- Go two-result map read `v, ok := m[k]`. -/
def kvGet (m : KVMap) (k : String) : Option String :=
  (m.find? (fun kv => kv.1 == k)).map (·.2)

/-- Go one-result map read `m[k]` (zero value on a missing key). -/
def kvGetD (m : KVMap) (k : String) : String :=
  (kvGet m k).getD ""

/-- Go map write `m[k] = v`. -/
def kvSet : KVMap → String → String → KVMap
  | [], k, v => [(k, v)]
  | (k', v') :: t, k, v =>
    if k' == k then (k, v) :: t else (k', v') :: kvSet t k v

/-! ## JSON decoding (Go encoding/json, restricted to the shapes GetRoles uses)

GetRoles unmarshals an annotation value first into a string and then into
a []string.  The model below follows the documented behaviour of
json.Unmarshal for those two target types: a JSON string literal decodes
into the string; a JSON array of string literals decodes into the slice;
the JSON literal null is accepted and leaves the target at its zero value
(empty string, nil slice) without an error; anything else is an error.
Unicode escapes (backslash-u) and raw control characters are not modelled;
no claim depends on them. -/

/-- Is `c` JSON whitespace? -/
def jsonWs : Char → Bool
  | ' ' | '\t' | '\n' | '\r' => true
  | _ => false

/-- Drop leading JSON whitespace. -/
def skipWs : List Char → List Char
  | [] => []
  | c :: t => if jsonWs c then skipWs t else c :: t

/-- The JSON single-character escape table (escape letter, denoted
character): quote, backslash, solidus, and the n, t, r, b, f controls. -/
def escTable : List (Char × Char) :=
  [('"', '"'), ('\\', '\\'), ('/', '/'), ('n', '\n'), ('t', '\t'), ('r', '\r'),
   ('b', Char.ofNat 8), ('f', Char.ofNat 12)]

/-- JSON single-character escapes (after a backslash), via the table. -/
def escChar (e : Char) : Option Char :=
  (escTable.find? (fun pr => pr.1 == e)).map (fun pr => pr.2)

/-- Parse the body of a JSON string literal (the opening quote already
consumed); returns the decoded characters and the rest of the input. -/
def parseStrBody : List Char → Option (List Char × List Char)
  | [] => none
  | '"' :: t => some ([], t)
  | '\\' :: [] => none
  | '\\' :: e :: t' =>
    match escChar e, parseStrBody t' with
    | some d, some r => some (d :: r.1, r.2)
    | _, _ => none
  | c :: t =>
    match parseStrBody t with
    | some r => some (c :: r.1, r.2)
    | none => none

/-- json.Unmarshal(data, target) for a target of type string, starting from
the zero value "".  The JSON literal null succeeds and leaves the target
at "" (documented no-op behaviour of Unmarshal on null). -/
def jsonUnmarshalStr (s : String) : Option String :=
  match skipWs s.toList with
  | '"' :: t =>
    match parseStrBody t with
    | some (cs, rest) => if (skipWs rest).isEmpty then some (String.mk cs) else none
    | none => none
  | 'n' :: 'u' :: 'l' :: 'l' :: t =>
    if (skipWs t).isEmpty then some "" else none
  | _ => none

/-- Parse one array element: a string literal, or null (which leaves the
element at the zero value ""). -/
def parseElem (l : List Char) : Option (String × List Char) :=
  match skipWs l with
  | '"' :: t => (parseStrBody t).map (fun r => (String.mk r.1, r.2))
  | 'n' :: 'u' :: 'l' :: 'l' :: t => some ("", t)
  | _ => none

/-- Parse the elements of a nonempty JSON array up to and including the
closing bracket; fuelled recursion (one fuel per element). -/
def parseElems : Nat → List Char → Option (List String × List Char)
  | 0, _ => none
  | fuel + 1, l =>
    match parseElem l with
    | none => none
    | some (s, r) =>
      match skipWs r with
      | ',' :: t => (parseElems fuel t).map (fun q => (s :: q.1, q.2))
      | ']' :: t => some ([s], t)
      | _ => none

/-- json.Unmarshal(data, target) for a target of type []string, starting
from the zero value nil.  The JSON literal null succeeds and yields the
nil slice (modelled as the empty list). -/
def jsonUnmarshalStrList (s : String) : Option (List String) :=
  match skipWs s.toList with
  | '[' :: t =>
    match skipWs t with
    | ']' :: r => if (skipWs r).isEmpty then some [] else none
    | _ =>
      match parseElems (t.length + 1) t with
      | some (ss, r) => if (skipWs r).isEmpty then some ss else none
      | none => none
  | 'n' :: 'u' :: 'l' :: 'l' :: t =>
    if (skipWs t).isEmpty then some [] else none
  | _ => none

/-- Split a character list on a separator character; like Go
strings.Split with a one-character separator, the result always has one
more piece than there are separators (an empty input gives one empty
piece). -/
def splitChar (sep : Char) : List Char → List (List Char)
  | [] => [[]]
  | c :: t =>
    let r := splitChar sep t
    if c = sep then [] :: r
    else
      match r with
      | [] => [[c]]
      | h :: t' => (c :: h) :: t'

/-- Go strings.Split(s, ".") as used by GetRoles. -/
def splitDots (s : String) : List String :=
  (splitChar '.' s.toList).map String.mk

/-! ## Topology-client error model (builtin.go sentinel errors) -/

/-- The sentinel errors of builtin.go, plus a generic case carrying the
error text; IsAlreadyJoined / IsTopologyDown / IsAlreadyBootstrapped
compare against the sentinels by identity, which the constructors model. -/
inductive TErr where
  | alreadyJoined
  | topologyDown
  | alreadyBootstrapped
  | other (msg : String)
deriving DecidableEq, Repr

/-- builtin.go IsAlreadyJoined. -/
def IsAlreadyJoined : TErr → Bool
  | .alreadyJoined => true
  | _ => false

/-- builtin.go IsTopologyDown. -/
def IsTopologyDown : TErr → Bool
  | .topologyDown => true
  | _ => false

/-- builtin.go IsAlreadyBootstrapped. -/
def IsAlreadyBootstrapped : TErr → Bool
  | .alreadyBootstrapped => true
  | _ => false

/-- The recognized phrase for a not-yet-initialized topology service
(written without a literal apostrophe character):
"This instance isn" ++ "'" ++ "t bootstrapped yet". -/
def notBootstrappedPhrase : String :=
  "This instance isn" ++ String.singleton (Char.ofNat 39) ++ "t bootstrapped yet"

/-- Join error classification (builtin.go lines 272-281): an error text
containing "already joined" maps to the already-joined sentinel; otherwise
one containing the not-bootstrapped phrase maps to the topology-down
sentinel; any other text is returned unclassified. -/
def classifyJoinErr (msg : String) : TErr :=
  if strContains msg "already joined" then .alreadyJoined
  else if strContains msg notBootstrappedPhrase then .topologyDown
  else .other msg

/-! ## Data model: pods and statefulsets -/

/-- An instance pod: name, labels, annotations, and the joined marker.
The marker is `Modelled from the spec:` the `tarantool` helper package
(controllers/tarantool, not under src/) exposes IsJoined / MarkJoined; the
spec describes a per-instance boolean "joined" progress marker, set after
a successful join or an already-joined signal and never unset. -/
structure Pod where
  name : String
  labels : KVMap
  annotations : KVMap
  joined : Bool
deriving DecidableEq, Repr

/-- A replicaset-group (StatefulSet): name, declared replica count, labels
and annotations. -/
structure Sts where
  name : String
  replicas : Nat
  labels : KVMap
  annotations : KVMap
deriving DecidableEq, Repr

/-- Modelled from the spec: tarantool.IsJoined reads the joined marker. -/
def IsJoined (p : Pod) : Bool := p.joined

/-- Modelled from the spec: tarantool.MarkJoined sets the joined marker. -/
def MarkJoined (p : Pod) : Pod := { p with joined := true }

/-- cluster_controller.go HasInstanceUUID: is the instance-uuid label set? -/
def HasInstanceUUID (p : Pod) : Bool :=
  (kvGet p.labels "tarantool.io/instance-uuid").isSome

/-- cluster_controller.go SetInstanceUUID: for a pod with a nonempty name,
write the label tarantool.io/instance-uuid with the UUID derived from the
name; a pod with an empty name is returned unchanged.  The library
function uuid.NewSHA1(space, name) is a pure hash of the name under the
fixed namespace UUID, modelled as an explicit function argument `gen`. -/
def SetInstanceUUID (gen : String → String) (p : Pod) : Pod :=
  if p.name.length = 0 then p
  else { p with labels := kvSet p.labels "tarantool.io/instance-uuid" (gen p.name) }

/-! ## Topology client operations (builtin.go) -/

/-- builtin.go GetRoles, over the labels and annotations of an object:
the annotation tarantool.io/rolesToAssign is tried first (as a JSON
string, then as a JSON array); absent that, the label of the same name is
split on dots; with neither, the role is undefined. -/
def GetRoles (labels annotations : KVMap) : Except String (List String) :=
  match kvGet annotations "tarantool.io/rolesToAssign" with
  | none =>
    match kvGet labels "tarantool.io/rolesToAssign" with
    | none => .error "role undefined"
    | some r => .ok (splitDots r)
  | some a =>
    match jsonUnmarshalStr a with
    | some single => .ok [single]
    | none =>
      match jsonUnmarshalStrList a with
      | some arr => .ok arr
      | none => .error "failed to parse roles from annotations"

/-- builtin.go Join: validates the pod labels (replicaset uuid, instance
uuid, roles, vshard-group configuration) and then performs the GraphQL
round trip, whose transport outcome the oracle `net` supplies per pod
name: an error text, or the decoded joinInstanceResponse flag.  A
transport error is classified by classifyJoinErr; a false response flag is
an opaque failure. -/
def Join (net : String → Except String Bool) (p : Pod) : Except TErr Unit :=
  match kvGet p.labels "tarantool.io/replicaset-uuid" with
  | none => .error (.other "replicaset uuid empty")
  | some _ =>
  match kvGet p.labels "tarantool.io/instance-uuid" with
  | none => .error (.other "instance uuid empty")
  | some _ =>
  match GetRoles p.labels p.annotations with
  | .error e => .error (.other e)
  | .ok _ =>
  match kvGet p.labels "tarantool.io/useVshardGroups" with
  | none => .error (.other "failed to get label tarantool.io/useVshardGroups")
  | some uvg =>
  match (if uvg == "1" then kvGet p.labels "tarantool.io/vshardGroupName" else some "default") with
  | none => .error (.other "vshard_group undefined")
  | some _ =>
  match net p.name with
  | .error msg => .error (classifyJoinErr msg)
  | .ok true => .ok ()
  | .ok false => .error (.other "something really bad happened")

/-- Outcome of builtin.go SetWeight: the returned error (if any) and
whether the GraphQL round trip was issued. -/
structure SetWeightOut where
  result : Except String Unit
  netCalled : Bool
deriving Repr

/-- builtin.go SetWeight: parse the weight string with
strconv.ParseUint(w, 10, 32); a parse failure is returned before any
request is sent.  On a successful parse the round trip runs (oracle
`net`, keyed by replicaset uuid and parsed weight); a false
editReplicasetResponse is an opaque failure. -/
def SetWeight (net : String → Nat → Except String Bool) (rsUUID w : String) : SetWeightOut :=
  match parseUint32 w with
  | .error e => ⟨.error e, false⟩
  | .ok n =>
    match net rsUUID n with
    | .error e => ⟨.error e, true⟩
    | .ok true => ⟨.ok (), true⟩
    | .ok false => ⟨.error "something really bad happened", true⟩

/-- Decoded response body of the bootstrap_vshard HTTP call:
the bootstrapVshardResponse flag and the list of error messages. -/
structure BootstrapResp where
  flag : Bool
  errs : List String
deriving DecidableEq, Repr

/-- builtin.go BootstrapVshard: the oracle gives either a transport or
decoding failure (error text) or the decoded response.  A true response
flag is success; otherwise the first reported error message is inspected
for the "already bootstrapped" phrase; no reported errors is an unknown
error. -/
def BootstrapVshard (resp : Except String BootstrapResp) : Except TErr Unit :=
  match resp with
  | .error m => .error (.other m)
  | .ok r =>
    if r.flag then .ok ()
    else
      match r.errs with
      | [] => .error (.other "unknown error")
      | e :: _ =>
        if strContains e "already bootstrapped" then .error .alreadyBootstrapped
        else .error (.other e)

/-- builtin.go SetFailover: a transport failure is wrapped in a fixed
message; otherwise success. -/
def SetFailover (net : Except String Unit) : Except String Unit :=
  match net with
  | .error _ => .error "failed to enable cluster failover"
  | .ok _ => .ok ()

/-! ## Server statistics (GetServerStat response data) -/

/-- One serverStat entry: the instance address and its resident
vshard-bucket count (the other statistics fields are not read by the
reconciler). -/
structure ServerStat where
  uri : String
  bucketsCount : Int
deriving DecidableEq, Repr

/-- The serverStat list of a GetServerStat response. -/
structure ServerStatData where
  stats : List ServerStat
deriving DecidableEq, Repr

/-- One iteration of the drain loop (cluster_controller.go lines
379-396): for a stat whose URI is prefixed by the group name, a zero
bucket count sets the scheduledDelete annotation to "1" (a nonzero count
only logs); `nm` is the group name, which the loop never modifies. -/
def drainStep (nm : String) (g : Sts) (st : ServerStat) : Sts :=
  if strStarts st.uri nm then
    if st.bucketsCount == 0 then
      { g with annotations := kvSet g.annotations "tarantool.io/scheduledDelete" "1" }
    else g
  else g

/-- The whole drain loop over the statistics list. -/
def drainUpdate (data : ServerStatData) (g : Sts) : Sts :=
  data.stats.foldl (drainStep g.name) g

/-- Modelled from the spec: utils.IsRolesEquals (controllers/utils, not
under src/) compares desired and actual role sets as unordered
collections; equality ignores order. -/
def IsRolesEquals (a b : List String) : Bool :=
  a.all (fun x => b.contains x) && b.all (fun x => a.contains x)

/-! ## The reconciliation pass (cluster_controller.go Reconcile, lines 293-501)

The embedding starts after topology-leader resolution (no claim concerns
lines 170-291).  The external world of one pass is an `Env`: the UUID
generator and the per-call transport outcomes of the topology client;
oracles are deterministic within the pass (the environment does not
change under the controller during one invocation). -/

/-- Environment of one pass. -/
structure Env where
  uuidGen : String → String
  joinNet : String → Except String Bool
  serverStat : Except String ServerStatData
  weightNet : String → Nat → Except String Bool
  rolesGet : String → Except String (List String)
  rolesSet : String → List String → Except String Unit
  bootResp : Except String BootstrapResp
  failoverNet : Except String Unit

/-- Observable side effects of a pass, in call order. -/
structure Trace where
  uuidAssigns : List String := []
  joinAttempts : List String := []
  setWeightCalls : List (String × Nat × String × String) := []
deriving DecidableEq, Repr

/-- Controller-visible state a pass reads and writes (the statefulset
list is threaded separately so each stage can rewrite the entry it is
processing). -/
structure RState where
  pods : List Pod
  clusterStatus : String
  trace : Trace
deriving DecidableEq, Repr

/-- Outcomes of Reconcile as the claims distinguish them:
{RequeueAfter: 5s} with nil error, {RequeueAfter: 5s} with an error,
{Requeue: true} with nil error, and the final {} with nil error. -/
inductive ReconcileResult where
  | requeueAfterOk
  | requeueAfterErr (msg : String)
  | requeueNow
  | ok
deriving DecidableEq, Repr

/-- Result of running one per-statefulset stage body: fall through to the
next statefulset, or return from Reconcile now. -/
inductive StsStep where
  | cont (g : Sts) (s : RState)
  | halt (g : Sts) (s : RState) (r : ReconcileResult)

/-- Run a per-statefulset stage body over the statefulset list in order;
an early return keeps the updates made so far and stops the scan. -/
def runStage (f : Sts → RState → StsStep) : List Sts → RState → (List Sts × RState × Option ReconcileResult)
  | [], s => ([], s, none)
  | g :: rest, s =>
    match f g s with
    | .halt g' s' r => (g' :: rest, s', some r)
    | .cont g' s' =>
      let q := runStage f rest s'
      (g' :: q.1, q.2.1, q.2.2)

/-- The pod fetched for index `i` of group `g`: name `g.name ++ "-" ++ i`. -/
def podName (g : String) (i : Nat) : String :=
  g ++ "-" ++ toString i

/-- r.Get of a pod by name (a missing pod is the IsNotFound case). -/
def findPod (pods : List Pod) (n : String) : Option Pod :=
  pods.find? (fun p => p.name == n)

/-- r.Update of a pod: replace the stored pod of the same name. -/
def replacePod : List Pod → Pod → List Pod
  | [], _ => []
  | q :: t, p => if q.name == p.name then p :: t else q :: replacePod t p

/-- Reconcile lines 294-321 (the UUID-assignment loop of one group): scan
pod indices in order; a missing pod returns {RequeueAfter}, nil; the first
pod without the instance-uuid label is assigned one and the pass returns
{Requeue: true}, nil. -/
def uuidLoop (env : Env) (g : Sts) : RState → List Nat → StsStep
  | s, [] => .cont g s
  | s, i :: rest =>
    match findPod s.pods (podName g.name i) with
    | none => .halt g s .requeueAfterOk
    | some p =>
      if HasInstanceUUID p then uuidLoop env g s rest
      else
        let p' := SetInstanceUUID env.uuidGen p
        .halt g
          { s with
            pods := replacePod s.pods p'
            trace := { s.trace with uuidAssigns := s.trace.uuidAssigns ++ [p.name] } }
          .requeueNow

/-- Reconcile lines 323-366 (the join loop of one group): scan pod indices
in order; joined pods are skipped; on the first unjoined pod Join is
attempted: an already-joined error marks the pod joined and continues the
scan, a topology-down error skips it and continues, any other error
returns {RequeueAfter}, nil, and success marks the pod joined and returns
{RequeueAfter}, nil. -/
def joinLoop (env : Env) (g : Sts) : RState → List Nat → StsStep
  | s, [] => .cont g s
  | s, i :: rest =>
    match findPod s.pods (podName g.name i) with
    | none => .halt g s .requeueAfterOk
    | some p =>
      if IsJoined p then joinLoop env g s rest
      else
        let s₁ := { s with trace := { s.trace with joinAttempts := s.trace.joinAttempts ++ [p.name] } }
        match Join env.joinNet p with
        | .error .alreadyJoined =>
          joinLoop env g { s₁ with pods := replacePod s₁.pods (MarkJoined p) } rest
        | .error .topologyDown => joinLoop env g s₁ rest
        | .error _ => .halt g s₁ .requeueAfterOk
        | .ok _ => .halt g { s₁ with pods := replacePod s₁.pods (MarkJoined p) } .requeueAfterOk

/-- Stage body for Reconcile lines 293-367: the UUID loop of the group,
then its join loop. -/
def lifecycleSts (env : Env) (g : Sts) (s : RState) : StsStep :=
  match uuidLoop env g s (List.range g.replicas) with
  | .halt g' s' r => .halt g' s' r
  | .cont g' s₁ => joinLoop env g' s₁ (List.range g'.replicas)

/-- Reconcile lines 400-419 (the joined gate of the weight stage): true
when every pod index of the group resolves to a pod wearing the joined
marker; a missing pod or an unjoined pod fails the gate (both return
{RequeueAfter}, nil from the pass). -/
def joinedGate (pods : List Pod) (gName : String) : List Nat → Bool
  | [] => true
  | i :: rest =>
    match findPod pods (podName gName i) with
    | none => false
    | some p => if IsJoined p then joinedGate pods gName rest else false

/-- Reconcile lines 373-398: for a declared weight of "0" run the drain
check over the server statistics (a stats failure is only logged and
leaves the group untouched); any other weight leaves the group
untouched. -/
def drainedGroup (env : Env) (g : Sts) (weight : String) : Sts :=
  if weight == "0" then
    match env.serverStat with
    | .error _ => g
    | .ok data => drainUpdate data g
  else g

/-- Stage body for Reconcile lines 369-424: the drain check for a
declared weight of "0", then the joined gate over every pod of the
group, then the SetWeight call with the declared weight string, whose
error (parse or transport) returns {RequeueAfter} with the error. -/
def weightSts (env : Env) (g : Sts) (s : RState) : StsStep :=
  let weight := kvGetD g.annotations "tarantool.io/replicaset-weight"
  let g₁ := drainedGroup env g weight
  if joinedGate s.pods g₁.name (List.range g₁.replicas) then
    let rsUUID := kvGetD g₁.labels "tarantool.io/replicaset-uuid"
    let s₁ := { s with trace := { s.trace with
      setWeightCalls := s.trace.setWeightCalls ++ [(g₁.name, g₁.replicas, rsUUID, weight)] } }
    match (SetWeight env.weightNet rsUUID weight).result with
    | .error e => .halt g₁ s₁ (.requeueAfterErr e)
    | .ok _ => .cont g₁ s₁
  else .halt g₁ s .requeueAfterOk

/-- Stage body for Reconcile lines 426-451: fetch the actual roles of the
group from the service, derive the desired roles from the group metadata,
and when the two differ as unordered collections push the desired roles;
every error returns {RequeueAfter} with the error. -/
def rolesSts (env : Env) (g : Sts) (s : RState) : StsStep :=
  let rsUUID := kvGetD g.labels "tarantool.io/replicaset-uuid"
  match env.rolesGet rsUUID with
  | .error e => .halt g s (.requeueAfterErr e)
  | .ok actual =>
    match GetRoles g.labels g.annotations with
    | .error e => .halt g s (.requeueAfterErr e)
    | .ok desire =>
      if IsRolesEquals actual desire then .cont g s
      else
        match env.rolesSet rsUUID desire with
        | .error e => .halt g s (.requeueAfterErr e)
        | .ok _ => .cont g s

/-- Render a classified topology error the way Reconcile surfaces it. -/
def errText : TErr → String
  | .alreadyJoined => "already joined"
  | .topologyDown => "topology service is down"
  | .alreadyBootstrapped => "already bootstrapped"
  | .other m => m

/-- Stage body for Reconcile lines 453-498: when the group is not marked
bootstrapped, call BootstrapVshard; an already-bootstrapped error sets the
isBootstrapped annotation to "1", flips the cluster status to "Ready" and
returns {RequeueAfter}, nil; any other error returns {RequeueAfter} with
the error; plain success falls through without marking anything.  Then,
when the group is not marked failover-enabled, call SetFailover(true); a
failure is only logged, success sets the failoverEnabled annotation. -/
def bootSts (env : Env) (g : Sts) (s : RState) : StsStep :=
  let afterBoot : Sum (Sts × RState) (Sts × RState × ReconcileResult) :=
    if kvGetD g.annotations "tarantool.io/isBootstrapped" != "1" then
      match BootstrapVshard env.bootResp with
      | .error .alreadyBootstrapped =>
        .inr ({ g with annotations := kvSet g.annotations "tarantool.io/isBootstrapped" "1" },
              { s with clusterStatus := "Ready" }, .requeueAfterOk)
      | .error e => .inr (g, s, .requeueAfterErr (errText e))
      | .ok _ => .inl (g, s)
    else .inl (g, s)
  match afterBoot with
  | .inr (g', s', r) => .halt g' s' r
  | .inl (g', s') =>
    if kvGetD g'.annotations "tarantool.io/failoverEnabled" == "1" then .cont g' s'
    else
      match SetFailover env.failoverNet with
      | .error _ => .cont g' s'
      | .ok _ => .cont { g' with annotations := kvSet g'.annotations "tarantool.io/failoverEnabled" "1" } s'

/-- Final outcome of a pass: the statefulset list, the state, and the
returned Result / error pair. -/
structure PassOut where
  stss : List Sts
  state : RState
  result : ReconcileResult
deriving DecidableEq, Repr

/-- The reconciliation pass over the statefulset list (Reconcile lines
293-501): instance lifecycle (UUID assignment and join), weight
convergence with the drain check, role convergence, then bootstrap and
failover; the first stage body that returns ends the pass. -/
def reconcilePass (env : Env) (stss : List Sts) (s : RState) : PassOut :=
  match runStage (lifecycleSts env) stss s with
  | (l, s', some r) => ⟨l, s', r⟩
  | (l₁, s₁, none) =>
    match runStage (weightSts env) l₁ s₁ with
    | (l, s', some r) => ⟨l, s', r⟩
    | (l₂, s₂, none) =>
      match runStage (rolesSts env) l₂ s₂ with
      | (l, s', some r) => ⟨l, s', r⟩
      | (l₃, s₃, none) =>
        match runStage (bootSts env) l₃ s₃ with
        | (l, s', some r) => ⟨l, s', r⟩
        | (l₄, s₄, none) => ⟨l₄, s₄, .ok⟩

/-! ## Concrete scenarios

Small worlds used by the counterexamples and witnesses.  Group "a" has
two pods carrying every label Join needs; the base environment answers
every call successfully. -/

/-- Pod a-0 with instance uuid, replicaset uuid, roles and vshard-group
labels, not yet joined. -/
def podFullA0 : Pod :=
  { name := "a-0",
    labels := [("tarantool.io/instance-uuid", "iu0"), ("tarantool.io/replicaset-uuid", "ru"),
               ("tarantool.io/rolesToAssign", "storage"), ("tarantool.io/useVshardGroups", "0")],
    annotations := [], joined := false }

/-- Pod a-1, same labels, not yet joined. -/
def podFullA1 : Pod :=
  { podFullA0 with name := "a-1" }

/-- Group "a" with two replicas, declared weight "1", already bootstrapped
and failover-enabled. -/
def stsWeighted : Sts :=
  { name := "a", replicas := 2,
    labels := [("tarantool.io/replicaset-uuid", "ru"), ("tarantool.io/rolesToAssign", "storage")],
    annotations := [("tarantool.io/replicaset-weight", "1"), ("tarantool.io/isBootstrapped", "1"),
                    ("tarantool.io/failoverEnabled", "1")] }

/-- Base environment: every network interaction succeeds. -/
def envBase : Env :=
  { uuidGen := fun n => "uuid-" ++ n,
    joinNet := fun _ => .ok true,
    serverStat := .ok ⟨[]⟩,
    weightNet := fun _ _ => .ok true,
    rolesGet := fun _ => .ok ["storage"],
    rolesSet := fun _ _ => .ok (),
    bootResp := .ok ⟨true, []⟩,
    failoverNet := .ok () }

/-- Environment whose transport reports "already joined" for pod a-0 and
success for every other join. -/
def envAlreadyJoined : Env :=
  { envBase with joinNet := fun n => if n == "a-0" then .error "already joined" else .ok true }

/-- Both pods of group "a" carry a UUID but neither is joined. -/
def stateUnjoined : RState :=
  { pods := [podFullA0, podFullA1], clusterStatus := "", trace := {} }

/-- Both pods of group "a" joined. -/
def stateJoined : RState :=
  { pods := [{ podFullA0 with joined := true }, { podFullA1 with joined := true }],
    clusterStatus := "", trace := {} }

/-- The joined single pod of the drain group "rs-A". -/
def podDrain : Pod :=
  { name := "rs-A-0",
    labels := [("tarantool.io/instance-uuid", "iu"), ("tarantool.io/replicaset-uuid", "ru")],
    annotations := [], joined := true }

/-- Drain group "rs-A": weight annotation "0", one replica, bootstrapped
and failover-enabled. -/
def stsDrain : Sts :=
  { name := "rs-A", replicas := 1,
    labels := [("tarantool.io/replicaset-uuid", "ru"), ("tarantool.io/rolesToAssign", "storage")],
    annotations := [("tarantool.io/replicaset-weight", "0"), ("tarantool.io/isBootstrapped", "1"),
                    ("tarantool.io/failoverEnabled", "1")] }

/-- Server statistics where instance rs-A-0 reports zero buckets but
instance rs-A-1 of the same group still holds five. -/
def envDrain : Env :=
  { envBase with serverStat := .ok ⟨[⟨"rs-A-0", 0⟩, ⟨"rs-A-1", 5⟩]⟩ }

/-- State of the drain scenario. -/
def stateDrain : RState :=
  { pods := [podDrain], clusterStatus := "", trace := {} }

/-- Group "rs-A" with weight "1", failover-enabled, but no isBootstrapped
annotation. -/
def stsUnbooted : Sts :=
  { stsDrain with
    annotations := [("tarantool.io/replicaset-weight", "1"), ("tarantool.io/failoverEnabled", "1")] }

/-- State of the bootstrap scenario (cluster status not yet ready). -/
def stateUnbooted : RState :=
  { pods := [podDrain], clusterStatus := "NotReady", trace := {} }

/-- Group "a" reduced to one replica (pod a-0). -/
def stsOneA : Sts :=
  { stsWeighted with replicas := 1 }

/-- Group "b" with one replica whose pod has no labels at all. -/
def stsOneB : Sts :=
  { name := "b", replicas := 1, labels := [], annotations := [] }

/-- The pod of group "b": no instance-uuid label. -/
def podBareB0 : Pod :=
  { name := "b-0", labels := [], annotations := [], joined := false }

/-- State with pod a-0 (uuid, unjoined) and pod b-0 (no uuid). -/
def stateLate : RState :=
  { pods := [podFullA0, podBareB0], clusterStatus := "", trace := {} }

deriving instance DecidableEq for Except

/-! ## Counterexamples -/

/-- C1 counterexample: group rs-A has weight "0"; the statistics show one
instance of the group (rs-A-1, URI prefixed by "rs-A") still holding five
buckets; the claim says the scheduled-for-deletion flag must then remain
unset, yet after the pass the group carries scheduledDelete = "1" (the
code marks per matching zero-bucket stat, not only when all are zero). -/
theorem c1_any_zero_sets_flag_counterexample :
    kvGet stsDrain.annotations "tarantool.io/replicaset-weight" = some "0" ∧
    envDrain.serverStat = .ok ⟨[⟨"rs-A-0", 0⟩, ⟨"rs-A-1", 5⟩]⟩ ∧
    strStarts "rs-A-1" stsDrain.name = true ∧
    ((reconcilePass envDrain [stsDrain] stateDrain).stss.head?.map
      (fun g => kvGet g.annotations "tarantool.io/scheduledDelete")) = some (some "1") := by
  decide

/-- C2 counterexample: group rs-A is not marked bootstrapped and
BootstrapVshard returns plain success (response flag true, no errors);
after the pass the bootstrapped flag is still unset and the cluster
status is unchanged, contradicting the claim that plain success sets the
flag to "1" and flips the status to "Ready" (only the already-bootstrapped
branch does). -/
theorem c2_plain_success_sets_nothing_counterexample :
    kvGet stsUnbooted.annotations "tarantool.io/isBootstrapped" = none ∧
    BootstrapVshard envBase.bootResp = .ok () ∧
    ((reconcilePass envBase [stsUnbooted] stateUnbooted).stss.head?.map
      (fun g => kvGet g.annotations "tarantool.io/isBootstrapped")) = some none ∧
    (reconcilePass envBase [stsUnbooted] stateUnbooted).state.clusterStatus = "NotReady" ∧
    (reconcilePass envBase [stsUnbooted] stateUnbooted).result = .ok := by
  decide

/-- C3 counterexample: both pods of group "a" have UUIDs and neither is
joined; the transport answers "already joined" for the first pod.  The
claim says the pass returns immediately after the first attempted join in
every outcome case, yet this pass attempts Join twice (a-0, then a-1):
the already-joined outcome marks the pod and continues the scan. -/
theorem c3_continues_after_already_joined_counterexample :
    HasInstanceUUID podFullA0 = true ∧ HasInstanceUUID podFullA1 = true ∧
    IsJoined podFullA0 = false ∧ IsJoined podFullA1 = false ∧
    (reconcilePass envAlreadyJoined [stsWeighted] stateUnjoined).state.trace.joinAttempts
      = ["a-0", "a-1"] := by
  decide

/-- C4 counterexample: pod b-0 of the second group has no instance-uuid
label, so the pass input contains an unassigned instance; yet the pass
assigns no UUID at all, does not request re-invocation, and marks pod a-0
of the first group joined: the per-group join loop of an earlier group
runs before the UUID loop of a later group. -/
theorem c4_earlier_group_join_counterexample :
    HasInstanceUUID podBareB0 = false ∧
    (reconcilePass envBase [stsOneA, stsOneB] stateLate).state.trace.uuidAssigns = [] ∧
    (reconcilePass envBase [stsOneA, stsOneB] stateLate).result = .requeueAfterOk ∧
    (findPod stateLate.pods "a-0").map Pod.joined = some false ∧
    (findPod (reconcilePass envBase [stsOneA, stsOneB] stateLate).state.pods "a-0").map Pod.joined
      = some true := by
  decide

/-- C6 counterexample: an error text containing both recognized phrases.
The claim requires Join to classify it as TopologyServiceDown (it contains
the not-bootstrapped phrase), but the "already joined" check runs first,
so the classification is AlreadyJoined. -/
theorem c6_overlapping_phrases_counterexample :
    strContains ("already joined because " ++ notBootstrappedPhrase) notBootstrappedPhrase = true ∧
    classifyJoinErr ("already joined because " ++ notBootstrappedPhrase) = .alreadyJoined ∧
    classifyJoinErr ("already joined because " ++ notBootstrappedPhrase) ≠ .topologyDown := by
  decide

/-- C8 counterexample: the annotation value "null" is well-formed JSON
that is neither a JSON string nor a JSON array, so the claim calls for a
hard input error; but json.Unmarshal of null into a string target is a
documented no-op with a nil error, so GetRoles returns the one-element
list containing the empty string. -/
theorem c8_null_annotation_counterexample :
    jsonUnmarshalStr "null" = some "" ∧
    GetRoles [] [("tarantool.io/rolesToAssign", "null")] = .ok [""] := by
  decide

/-! ## Map lemmas -/

/-- Reading back the key just written. -/
theorem kvGet_kvSet_self (m : KVMap) (k v : String) : kvGet (kvSet m k v) k = some v := by
  induction m with
  | nil => simp [kvSet, kvGet]
  | cons h t ih =>
    by_cases hk : h.1 == k
    · simp [kvSet, hk, kvGet]
    · simp only [kvSet, hk, Bool.false_eq_true, if_false]
      simpa [kvGet, List.find?, hk] using ih

/-- Writing one key does not change another. -/
theorem kvGet_kvSet_ne (m : KVMap) (k k' v : String) (h : k' ≠ k) :
    kvGet (kvSet m k v) k' = kvGet m k' := by
  have hkk : (k == k') = false := beq_eq_false_iff_ne.mpr (fun hx => h hx.symm)
  induction m with
  | nil => simp [kvSet, kvGet, List.find?, hkk]
  | cons hd t ih =>
    by_cases hk : hd.1 == k
    · have h1 : hd.1 = k := beq_iff_eq .. |>.mp hk
      have h2 : (hd.1 == k') = false := by
        rw [h1]; exact hkk
      simp [kvSet, hk, kvGet, List.find?, hkk, h2]
    · simp only [kvSet, hk, Bool.false_eq_true, if_false]
      by_cases h2 : hd.1 == k'
      · simp [kvGet, List.find?, h2]
      · simpa [kvGet, List.find?, h2] using ih

/-- Re-writing the same key with the same value is a no-op. -/
theorem kvSet_idem (m : KVMap) (k v : String) : kvSet (kvSet m k v) k v = kvSet m k v := by
  induction m with
  | nil => simp [kvSet]
  | cons h t ih =>
    by_cases hk : h.1 == k
    · simp [kvSet, hk]
    · simp [kvSet, hk, ih]

/-! ## C9 and C10: SetInstanceUUID -/

/-- The instance name is a string, and length zero means the empty string. -/
theorem strLen_zero (s : String) : s.length = 0 ↔ s = "" := by
  cases s with
  | mk data =>
    constructor
    · intro h
      have : data = [] := List.length_eq_zero.mp h
      simp [this]
    · intro h
      simp [h]

/-- C9: the instance UUID is a deterministic function of the pod name:
for any two pods sharing the same nonempty name, SetInstanceUUID writes
the same label value, namely the hash of the name; and re-applying
SetInstanceUUID to its own output is a no-op (idempotent). -/
theorem c9_uuid_deterministic_idempotent (gen : String → String) (p q : Pod)
    (hpq : p.name = q.name) (hne : p.name ≠ "") :
    kvGet (SetInstanceUUID gen p).labels "tarantool.io/instance-uuid" = some (gen p.name) ∧
    kvGet (SetInstanceUUID gen q).labels "tarantool.io/instance-uuid" = some (gen p.name) ∧
    SetInstanceUUID gen (SetInstanceUUID gen p) = SetInstanceUUID gen p := by
  have hlp : ¬ p.name.length = 0 := fun h => hne ((strLen_zero p.name).mp h)
  have hlq : ¬ q.name.length = 0 := fun h => hne (hpq ▸ (strLen_zero q.name).mp h)
  refine ⟨?_, ?_, ?_⟩
  · simp [SetInstanceUUID, hlp, kvGet_kvSet_self]
  · simp [SetInstanceUUID, hlq, hpq, kvGet_kvSet_self]
  · simp [SetInstanceUUID, hlp, kvSet_idem]

/-- C9 witness: two pods named n0 with different prior labels receive the
identical UUID label value, and re-application is a no-op. -/
theorem c9_uuid_deterministic_idempotent_witness :
    kvGet (SetInstanceUUID (fun n => "uuid-" ++ n)
      { name := "n0", labels := [], annotations := [], joined := false }).labels
      "tarantool.io/instance-uuid" = some "uuid-n0" ∧
    kvGet (SetInstanceUUID (fun n => "uuid-" ++ n)
      { name := "n0", labels := [("x", "y")], annotations := [], joined := true }).labels
      "tarantool.io/instance-uuid" = some "uuid-n0" ∧
    SetInstanceUUID (fun n => "uuid-" ++ n)
      (SetInstanceUUID (fun n => "uuid-" ++ n)
        { name := "n0", labels := [], annotations := [], joined := false }) =
      SetInstanceUUID (fun n => "uuid-" ++ n)
        { name := "n0", labels := [], annotations := [], joined := false } :=
  c9_uuid_deterministic_idempotent (fun n => "uuid-" ++ n)
    { name := "n0", labels := [], annotations := [], joined := false }
    { name := "n0", labels := [("x", "y")], annotations := [], joined := true }
    rfl (by decide)

/-- C10: a pod whose name is the empty string is returned unchanged by
SetInstanceUUID: no label is added and no field is modified. -/
theorem c10_empty_name_unchanged (gen : String → String) (p : Pod) (h : p.name = "") :
    SetInstanceUUID gen p = p := by
  simp [SetInstanceUUID, h]

/-- C10 witness at a concrete pod with an empty name. -/
theorem c10_empty_name_unchanged_witness :
    SetInstanceUUID (fun n => "uuid-" ++ n)
      { name := "", labels := [("a", "b")], annotations := [], joined := false } =
      { name := "", labels := [("a", "b")], annotations := [], joined := false } :=
  c10_empty_name_unchanged (fun n => "uuid-" ++ n)
    { name := "", labels := [("a", "b")], annotations := [], joined := false } rfl

/-! ## C7: SetWeight parses before calling -/

/-- C7: for every weight string that is not a decimal representation of a
non-negative integer (empty, or containing a non-digit character),
SetWeight returns a parse error and issues no network call. -/
theorem c7_setweight_no_call_on_parse_error (net : String → Nat → Except String Bool)
    (u w : String) (h : ¬ (w ≠ "" ∧ w.toList.all Char.isDigit = true)) :
    (SetWeight net u w).netCalled = false ∧ (SetWeight net u w).result.isOk = false := by
  have hp : parseUint32 w = .error "invalid syntax" := by
    by_cases he : w = ""
    · rw [he]; decide
    · have hne : w.isEmpty = false := by
        rw [Bool.eq_false_iff]
        simpa [String.isEmpty_iff] using he
      have hd : w.toList.all Char.isDigit = false := by
        rw [Bool.eq_false_iff]
        exact fun hx => h ⟨he, hx⟩
      simp only [parseUint32, hne, hd, Bool.false_eq_true, if_false]
  simp [SetWeight, hp, Except.isOk, Except.toBool]

/-- C7 witness: the weight string abc produces a parse error with the
round trip never issued. -/
theorem c7_setweight_no_call_on_parse_error_witness :
    (SetWeight (fun _ _ => .ok true) "ru" "abc").netCalled = false ∧
    (SetWeight (fun _ _ => .ok true) "ru" "abc").result.isOk = false :=
  c7_setweight_no_call_on_parse_error (fun _ _ => .ok true) "ru" "abc" (by decide)

/-! ## C6: the classification seam -/

/-- C6 (amended): the classification is by the fixed phrases, tried in
order.  Join classifies an error text as AlreadyJoined exactly when it
contains "already joined"; as TopologyServiceDown exactly when it does
not contain "already joined" but contains the not-bootstrapped phrase;
and returns it unclassified exactly when it contains neither.
BootstrapVshard, on a response reporting failure with at least one error,
returns AlreadyBootstrapped exactly when the first reported message
contains "already bootstrapped". -/
theorem c6_ordered_classification :
    (∀ m : String, classifyJoinErr m = .alreadyJoined ↔ strContains m "already joined" = true) ∧
    (∀ m : String, classifyJoinErr m = .topologyDown ↔
      (strContains m "already joined" = false ∧ strContains m notBootstrappedPhrase = true)) ∧
    (∀ m : String, classifyJoinErr m = .other m ↔
      (strContains m "already joined" = false ∧ strContains m notBootstrappedPhrase = false)) ∧
    (∀ (e : String) (es : List String),
      BootstrapVshard (.ok ⟨false, e :: es⟩) = .error .alreadyBootstrapped ↔
        strContains e "already bootstrapped" = true) := by
  refine ⟨fun m => ?_, fun m => ?_, fun m => ?_, fun e es => ?_⟩
  · unfold classifyJoinErr
    by_cases h1 : strContains m "already joined" <;>
      by_cases h2 : strContains m notBootstrappedPhrase <;> simp [h1, h2]
  · unfold classifyJoinErr
    by_cases h1 : strContains m "already joined" <;>
      by_cases h2 : strContains m notBootstrappedPhrase <;> simp [h1, h2]
  · unfold classifyJoinErr
    by_cases h1 : strContains m "already joined" <;>
      by_cases h2 : strContains m notBootstrappedPhrase <;> simp [h1, h2]
  · unfold BootstrapVshard
    by_cases hb : strContains e "already bootstrapped" <;> simp [hb]

/-! ## C1: the drain check -/

/-- Projection of the group out of a stage-body result. -/
def stepSts : StsStep → Sts
  | .cont g _ => g
  | .halt g _ _ => g

/-- Projection of the state out of a stage-body result. -/
def stepState : StsStep → RState
  | .cont _ s => s
  | .halt _ s _ => s

/-- After the drain fold, the scheduledDelete annotation reads "1" exactly
when some stat matches the group prefix with zero buckets; otherwise it is
whatever it was before. -/
theorem drainFold_key (nm : String) : ∀ (l : List ServerStat) (g : Sts),
    kvGet (l.foldl (drainStep nm) g).annotations "tarantool.io/scheduledDelete" =
      if l.any (fun st => strStarts st.uri nm && (st.bucketsCount == 0)) then some "1"
      else kvGet g.annotations "tarantool.io/scheduledDelete"
  | [], g => by simp
  | st :: t, g => by
    have ih := drainFold_key nm t
    by_cases h1 : strStarts st.uri nm <;> by_cases h2 : st.bucketsCount == 0 <;>
      simp [List.foldl_cons, List.any_cons, drainStep, h1, h2, ih, kvGet_kvSet_self]

/-- C1 (amended): with a declared weight of "0" and available statistics,
the pass runs the drain check, which sets the scheduled-for-deletion
annotation to "1" exactly when at least one server stat whose address is
prefixed by the group name reports zero resident buckets — regardless of
the counts the other instances of the group report; with no such stat the
annotation keeps its previous value. -/
theorem c1_drain_flag_iff_any_zero :
    (∀ (data : ServerStatData) (g : Sts),
      kvGet (drainUpdate data g).annotations "tarantool.io/scheduledDelete" =
        if data.stats.any (fun st => strStarts st.uri g.name && (st.bucketsCount == 0)) then some "1"
        else kvGet g.annotations "tarantool.io/scheduledDelete") ∧
    (∀ (env : Env) (g : Sts) (s : RState) (data : ServerStatData),
      kvGetD g.annotations "tarantool.io/replicaset-weight" = "0" →
      env.serverStat = .ok data →
      stepSts (weightSts env g s) = drainUpdate data g) := by
  constructor
  · intro data g
    exact drainFold_key g.name data.stats g
  · intro env g s data hw hs
    simp only [weightSts, drainedGroup, hw, hs, beq_self_eq_true, if_true]
    split
    · split <;> rfl
    · rfl

/-- C1 witness: in the drain scenario the weight stage group is exactly
the drain update of the statistics. -/
theorem c1_drain_flag_iff_any_zero_witness :
    stepSts (weightSts envDrain stsDrain stateDrain) =
      drainUpdate ⟨[⟨"rs-A-0", 0⟩, ⟨"rs-A-1", 5⟩]⟩ stsDrain :=
  c1_drain_flag_iff_any_zero.2 envDrain stsDrain stateDrain
    ⟨[⟨"rs-A-0", 0⟩, ⟨"rs-A-1", 5⟩]⟩ (by decide) (by decide)

/-! ## C2: bootstrap-stage outcomes -/

/-- Environment whose bootstrap response reports the already-bootstrapped
error. -/
def envAlreadyBooted : Env :=
  { envBase with bootResp := .ok ⟨false, ["already bootstrapped"]⟩ }

/-- C2 (amended): for a group not yet marked bootstrapped, BootstrapVshard
is called and neither terminal-success outcome surfaces an error, but the
two are not treated alike: the AlreadyBootstrapped outcome sets the
isBootstrapped annotation to "1", flips the cluster status to "Ready" and
ends the pass with {RequeueAfter}, nil, while a plain success continues
the stage with the bootstrapped annotation still unset and the status
unchanged (the flag only becomes "1" on a later pass, when the service
reports already-bootstrapped). -/
theorem c2_bootstrap_outcome_split (env : Env) (g : Sts) (s : RState)
    (h : kvGetD g.annotations "tarantool.io/isBootstrapped" ≠ "1") :
    (BootstrapVshard env.bootResp = .error .alreadyBootstrapped →
      bootSts env g s =
        .halt { g with annotations := kvSet g.annotations "tarantool.io/isBootstrapped" "1" }
          { s with clusterStatus := "Ready" } .requeueAfterOk) ∧
    (BootstrapVshard env.bootResp = .ok () →
      ∃ g', bootSts env g s = .cont g' s ∧
        kvGet g'.annotations "tarantool.io/isBootstrapped" =
          kvGet g.annotations "tarantool.io/isBootstrapped") := by
  have hb : (kvGetD g.annotations "tarantool.io/isBootstrapped" != "1") = true := by
    simpa [bne_iff_ne] using h
  constructor
  · intro hbv
    simp [bootSts, hb, hbv]
  · intro hbv
    by_cases hf : kvGetD g.annotations "tarantool.io/failoverEnabled" == "1"
    · exact ⟨g, by simp [bootSts, hb, hbv, hf], rfl⟩
    · rcases hfn : env.failoverNet with e | u
      · exact ⟨g, by simp [bootSts, hb, hbv, hf, SetFailover, hfn], rfl⟩
      · refine ⟨{ g with annotations := kvSet g.annotations "tarantool.io/failoverEnabled" "1" },
          by simp [bootSts, hb, hbv, hf, SetFailover, hfn], ?_⟩
        exact kvGet_kvSet_ne g.annotations "tarantool.io/failoverEnabled"
          "tarantool.io/isBootstrapped" "1" (by decide)

/-- C2 witness: the already-bootstrapped response marks and halts; the
plain-success response leaves the flag unset and continues. -/
theorem c2_bootstrap_outcome_split_witness :
    (bootSts envAlreadyBooted stsUnbooted stateUnbooted =
      .halt { stsUnbooted with
                annotations := kvSet stsUnbooted.annotations "tarantool.io/isBootstrapped" "1" }
        { stateUnbooted with clusterStatus := "Ready" } .requeueAfterOk) ∧
    (∃ g', bootSts envBase stsUnbooted stateUnbooted = .cont g' stateUnbooted ∧
      kvGet g'.annotations "tarantool.io/isBootstrapped" =
        kvGet stsUnbooted.annotations "tarantool.io/isBootstrapped") :=
  ⟨(c2_bootstrap_outcome_split envAlreadyBooted stsUnbooted stateUnbooted (by decide)).1 (by decide),
   (c2_bootstrap_outcome_split envBase stsUnbooted stateUnbooted (by decide)).2 (by decide)⟩

/-! ## Scan lemmas for the instance lifecycle stage -/

/-- A found pod carries the looked-up name. -/
theorem findPod_name {pods : List Pod} {n : String} {p : Pod}
    (h : findPod pods n = some p) : p.name = n := by
  have := List.find?_some h
  exact beq_iff_eq .. |>.mp this

/-- SetInstanceUUID never changes the pod name. -/
theorem setInstanceUUID_name (gen : String → String) (p : Pod) :
    (SetInstanceUUID gen p).name = p.name := by
  unfold SetInstanceUUID
  split <;> rfl

/-- SetInstanceUUID never changes the joined marker. -/
theorem setInstanceUUID_joined (gen : String → String) (p : Pod) :
    (SetInstanceUUID gen p).joined = p.joined := by
  unfold SetInstanceUUID
  split <;> rfl

/-- Replacing a stored pod by an update that agrees on an observation `f`
with the pod it replaces leaves the image of the list under `f`
unchanged. -/
theorem replacePod_map {α : Type} (f : Pod → α) : ∀ (pods : List Pod) (p' : Pod),
    (∀ q, findPod pods p'.name = some q → f q = f p') →
    (replacePod pods p').map f = pods.map f
  | [], _, _ => rfl
  | q :: t, p', h => by
    by_cases hq : q.name == p'.name
    · have : f q = f p' := h q (by simp [findPod, List.find?, hq])
      simp [replacePod, hq, this]
    · have ht := replacePod_map f t p' fun r hr => h r (by simpa [findPod, List.find?, hq] using hr)
      simp [replacePod, hq, ht]

/-- The UUID loop walks past indices whose pods already carry a UUID. -/
theorem uuidLoop_skip (env : Env) (g : Sts) (s : RState) : ∀ (l : List Nat),
    (∀ i ∈ l, ∃ q, findPod s.pods (podName g.name i) = some q ∧ HasInstanceUUID q = true) →
    uuidLoop env g s l = .cont g s
  | [], _ => rfl
  | i :: t, h => by
    obtain ⟨q, hf, hu⟩ := h i (List.mem_cons_self i t)
    have ih := uuidLoop_skip env g s t fun j hj => h j (List.mem_cons_of_mem i hj)
    simp [uuidLoop, hf, hu, ih]

/-- After a prefix of UUID-carrying pods, the UUID loop assigns to the
first pod without one and returns {Requeue: true}. -/
theorem uuidLoop_find (env : Env) (g : Sts) (s : RState) (j : Nat) (l₂ : List Nat) (p : Pod)
    (hj : findPod s.pods (podName g.name j) = some p) (hu : HasInstanceUUID p = false) :
    ∀ (l₁ : List Nat),
    (∀ i ∈ l₁, ∃ q, findPod s.pods (podName g.name i) = some q ∧ HasInstanceUUID q = true) →
    uuidLoop env g s (l₁ ++ j :: l₂) =
      .halt g
        { s with
          pods := replacePod s.pods (SetInstanceUUID env.uuidGen p)
          trace := { s.trace with uuidAssigns := s.trace.uuidAssigns ++ [p.name] } }
        .requeueNow
  | [], _ => by simp [uuidLoop, hj, hu]
  | i :: t, h => by
    obtain ⟨q, hf, hq⟩ := h i (List.mem_cons_self i t)
    have ih := uuidLoop_find env g s j l₂ p hj hu t fun x hx => h x (List.mem_cons_of_mem i hx)
    simp [uuidLoop, hf, hq, ih]

/-- The join loop walks past a prefix of indices whose pods are joined. -/
theorem joinLoop_append (env : Env) (g : Sts) (s : RState) (rest : List Nat) : ∀ (l₁ : List Nat),
    (∀ i ∈ l₁, ∃ q, findPod s.pods (podName g.name i) = some q ∧ IsJoined q = true) →
    joinLoop env g s (l₁ ++ rest) = joinLoop env g s rest
  | [], _ => rfl
  | i :: t, h => by
    obtain ⟨q, hf, hq⟩ := h i (List.mem_cons_self i t)
    have ih := joinLoop_append env g s rest t fun x hx => h x (List.mem_cons_of_mem i hx)
    simp [joinLoop, hf, hq, ih]

/-- A group whose pods all carry a UUID and are all joined is skipped by
the lifecycle stage without any change. -/
theorem lifecycleSts_skip (env : Env) (g : Sts) (s : RState)
    (h : ∀ i ∈ List.range g.replicas, ∃ q, findPod s.pods (podName g.name i) = some q ∧
      HasInstanceUUID q = true ∧ IsJoined q = true) :
    lifecycleSts env g s = .cont g s := by
  unfold lifecycleSts
  rw [uuidLoop_skip env g s _ fun i hi => (h i hi).imp fun q hq => ⟨hq.1, hq.2.1⟩]
  have hj := joinLoop_append env g s [] (List.range g.replicas)
    (fun i hi => (h i hi).imp fun q hq => ⟨hq.1, hq.2.2⟩)
  rw [List.append_nil] at hj
  simpa [joinLoop] using hj

/-- A stage scan passes unchanged over a prefix of groups its body leaves
untouched. -/
theorem runStage_skip (f : Sts → RState → StsStep) (rest : List Sts) (s : RState) :
    ∀ (pre : List Sts), (∀ g ∈ pre, f g s = .cont g s) →
    runStage f (pre ++ rest) s =
      (pre ++ (runStage f rest s).1, (runStage f rest s).2.1, (runStage f rest s).2.2)
  | [], _ => by simp [runStage]
  | g :: t, h => by
    have hg := h g (List.mem_cons_self g t)
    have ih := runStage_skip f rest s t fun x hx => h x (List.mem_cons_of_mem g hx)
    simp [runStage, hg, ih]

/-- Decompose an index range at a chosen position. -/
theorem range_split (n j : Nat) (h : j < n) :
    List.range n = List.range j ++ j :: List.range' (j + 1) (n - j - 1) := by
  have h2 : n - j = (n - j - 1) + 1 := by omega
  have h4 : n - j + j = n := by omega
  have h3 := List.range'_append 0 j (n - j) 1
  simp only [Nat.one_mul, Nat.zero_add, h4] at h3
  rw [List.range_eq_range', List.range_eq_range', ← h3, h2, List.range'_succ]
  simp

/-- C4 (amended): when the passed-in world has an instance without an
instance-uuid label and every instance of the groups preceding that
instance's group is already joined, the pass assigns a UUID to exactly
one instance — the first without one, in group order and instance-index
order — requests re-invocation ({Requeue: true}), and sets no joined
marker in that same pass.  (The counterexample shows the gate on the
preceding groups is necessary: an earlier group's join loop runs before a
later group's UUID loop.) -/
theorem c4_one_uuid_assignment (env : Env) (pre post : List Sts) (g : Sts) (s : RState)
    (j : Nat) (p : Pod)
    (hpre : ∀ t ∈ pre, ∀ i ∈ List.range t.replicas,
      ∃ q, findPod s.pods (podName t.name i) = some q ∧ HasInstanceUUID q = true ∧
        IsJoined q = true)
    (hgpre : ∀ i ∈ List.range j,
      ∃ q, findPod s.pods (podName g.name i) = some q ∧ HasInstanceUUID q = true)
    (hjlt : j < g.replicas)
    (hj : findPod s.pods (podName g.name j) = some p)
    (hu : HasInstanceUUID p = false) :
    (reconcilePass env (pre ++ g :: post) s).result = .requeueNow ∧
    (reconcilePass env (pre ++ g :: post) s).state.trace.uuidAssigns =
      s.trace.uuidAssigns ++ [p.name] ∧
    (reconcilePass env (pre ++ g :: post) s).state.trace.joinAttempts = s.trace.joinAttempts ∧
    (reconcilePass env (pre ++ g :: post) s).state.pods.map (fun q => (q.name, q.joined)) =
      s.pods.map (fun q => (q.name, q.joined)) := by
  have hbody : lifecycleSts env g s =
      .halt g
        { s with
          pods := replacePod s.pods (SetInstanceUUID env.uuidGen p)
          trace := { s.trace with uuidAssigns := s.trace.uuidAssigns ++ [p.name] } }
        .requeueNow := by
    unfold lifecycleSts
    rw [range_split g.replicas j hjlt, uuidLoop_find env g s j _ p hj hu (List.range j) hgpre]
  have hstage : runStage (lifecycleSts env) (pre ++ g :: post) s =
      (pre ++ g :: post,
       { s with
         pods := replacePod s.pods (SetInstanceUUID env.uuidGen p)
         trace := { s.trace with uuidAssigns := s.trace.uuidAssigns ++ [p.name] } },
       some .requeueNow) := by
    rw [runStage_skip (lifecycleSts env) (g :: post) s pre
      (fun t ht => lifecycleSts_skip env t s (hpre t ht))]
    simp [runStage, hbody]
  have hpass : reconcilePass env (pre ++ g :: post) s =
      ⟨pre ++ g :: post,
       { s with
         pods := replacePod s.pods (SetInstanceUUID env.uuidGen p)
         trace := { s.trace with uuidAssigns := s.trace.uuidAssigns ++ [p.name] } },
       .requeueNow⟩ := by
    simp [reconcilePass, hstage]
  refine ⟨by rw [hpass], by rw [hpass], by rw [hpass], ?_⟩
  rw [hpass]
  apply replacePod_map
  intro q hq
  rw [setInstanceUUID_name, findPod_name hj, hj] at hq
  obtain rfl : p = q := Option.some.inj hq
  simp [setInstanceUUID_name, setInstanceUUID_joined]

/-- State with pod a-0 carrying a UUID and joined, and pod b-0 of the
later group carrying no labels. -/
def stateLateJoined : RState :=
  { pods := [{ podFullA0 with joined := true }, podBareB0], clusterStatus := "", trace := {} }

/-- C4 witness: with group "a" fully joined and pod b-0 lacking a UUID,
the pass assigns a UUID exactly to b-0, requests re-invocation and flips
no joined marker. -/
theorem c4_one_uuid_assignment_witness :
    (reconcilePass envBase ([stsOneA] ++ stsOneB :: []) stateLateJoined).result = .requeueNow ∧
    (reconcilePass envBase ([stsOneA] ++ stsOneB :: []) stateLateJoined).state.trace.uuidAssigns =
      stateLateJoined.trace.uuidAssigns ++ [podBareB0.name] ∧
    (reconcilePass envBase ([stsOneA] ++ stsOneB :: []) stateLateJoined).state.trace.joinAttempts =
      stateLateJoined.trace.joinAttempts ∧
    (reconcilePass envBase ([stsOneA] ++ stsOneB :: []) stateLateJoined).state.pods.map
        (fun q => (q.name, q.joined)) =
      stateLateJoined.pods.map (fun q => (q.name, q.joined)) :=
  c4_one_uuid_assignment envBase [stsOneA] [] stsOneB stateLateJoined 0 podBareB0
    (by
      intro t ht i hi
      rw [List.mem_singleton] at ht
      subst ht
      have : i = 0 := by simpa [stsOneA, stsWeighted, Nat.lt_one_iff] using hi
      subst this
      exact ⟨{ podFullA0 with joined := true }, by decide, by decide, by decide⟩)
    (by intro i hi; simp at hi)
    (by decide) (by decide) (by decide)

/-- C3 (amended): in the join stage, once every instance of the group has
a UUID the lifecycle stage is exactly the join scan, which walks the
instances in index order, skips joined ones, and attempts Join on the
first instance without the joined marker; the pass returns immediately
({RequeueAfter}, nil) after that first attempted join only when the
outcome is success (which also marks the instance joined) or an
unrecognized error (which marks nothing); an already-joined outcome marks
the instance joined and the scan continues with the remaining indices,
and a topology-service-down outcome leaves it unmarked and the scan
continues. -/
theorem c3_join_scan_outcomes (env : Env) (g : Sts) (s : RState) (j : Nat) (l₂ : List Nat)
    (p : Pod) (l₁ : List Nat)
    (hpre : ∀ i ∈ l₁, ∃ q, findPod s.pods (podName g.name i) = some q ∧ IsJoined q = true)
    (hj : findPod s.pods (podName g.name j) = some p)
    (hnj : IsJoined p = false) :
    (Join env.joinNet p = .ok () →
      joinLoop env g s (l₁ ++ j :: l₂) =
        .halt g
          { s with
            pods := replacePod s.pods (MarkJoined p)
            trace := { s.trace with joinAttempts := s.trace.joinAttempts ++ [p.name] } }
          .requeueAfterOk) ∧
    (∀ m, Join env.joinNet p = .error (.other m) →
      joinLoop env g s (l₁ ++ j :: l₂) =
        .halt g
          { s with trace := { s.trace with joinAttempts := s.trace.joinAttempts ++ [p.name] } }
          .requeueAfterOk) ∧
    (Join env.joinNet p = .error .alreadyJoined →
      joinLoop env g s (l₁ ++ j :: l₂) =
        joinLoop env g
          { s with
            pods := replacePod s.pods (MarkJoined p)
            trace := { s.trace with joinAttempts := s.trace.joinAttempts ++ [p.name] } } l₂) ∧
    (Join env.joinNet p = .error .topologyDown →
      joinLoop env g s (l₁ ++ j :: l₂) =
        joinLoop env g
          { s with trace := { s.trace with joinAttempts := s.trace.joinAttempts ++ [p.name] } }
          l₂) ∧
    ((∀ i ∈ List.range g.replicas,
        ∃ q, findPod s.pods (podName g.name i) = some q ∧ HasInstanceUUID q = true) →
      lifecycleSts env g s = joinLoop env g s (List.range g.replicas)) := by
  rw [joinLoop_append env g s (j :: l₂) l₁ hpre]
  refine ⟨?_, ?_, ?_, ?_, ?_⟩
  · intro hJ
    simp [joinLoop, hj, hnj, hJ]
  · intro m hJ
    simp [joinLoop, hj, hnj, hJ]
  · intro hJ
    simp [joinLoop, hj, hnj, hJ]
  · intro hJ
    simp [joinLoop, hj, hnj, hJ]
  · intro hAll
    unfold lifecycleSts
    rw [uuidLoop_skip env g s _ hAll]

/-- C3 witness: pod a-0 is the first unjoined instance; under the
all-success transport the scan halts right after its join and marks it;
under the transport answering "already joined" for a-0 the scan instead
continues with index 1. -/
theorem c3_join_scan_outcomes_witness :
    (joinLoop envBase stsWeighted stateUnjoined ([] ++ 0 :: [1]) =
      .halt stsWeighted
        { stateUnjoined with
          pods := replacePod stateUnjoined.pods (MarkJoined podFullA0)
          trace := { stateUnjoined.trace with
            joinAttempts := stateUnjoined.trace.joinAttempts ++ [podFullA0.name] } }
        .requeueAfterOk) ∧
    (joinLoop envAlreadyJoined stsWeighted stateUnjoined ([] ++ 0 :: [1]) =
      joinLoop envAlreadyJoined stsWeighted
        { stateUnjoined with
          pods := replacePod stateUnjoined.pods (MarkJoined podFullA0)
          trace := { stateUnjoined.trace with
            joinAttempts := stateUnjoined.trace.joinAttempts ++ [podFullA0.name] } } [1]) :=
  ⟨(c3_join_scan_outcomes envBase stsWeighted stateUnjoined 0 [1] podFullA0 []
      (by intro i hi; simp at hi) (by decide) (by decide)).1 (by decide),
   (c3_join_scan_outcomes envAlreadyJoined stsWeighted stateUnjoined 0 [1] podFullA0 []
      (by intro i hi; simp at hi) (by decide) (by decide)).2.2.1 (by decide)⟩

/-! ## Invariants for the weight-gating claim -/

/-- The joined gate is true exactly when every index resolves to a pod
wearing the joined marker. -/
theorem joinedGate_spec (pods : List Pod) (nm : String) : ∀ (l : List Nat),
    joinedGate pods nm l = true ↔
      ∀ i ∈ l, ∃ q, findPod pods (podName nm i) = some q ∧ IsJoined q = true
  | [] => by simp [joinedGate]
  | i :: t => by
    have ih := joinedGate_spec pods nm t
    rcases hf : findPod pods (podName nm i) with _ | q
    · simp only [joinedGate, hf, Bool.false_eq_true, false_iff, not_forall]
      refine ⟨i, List.mem_cons_self i t, fun hcon => ?_⟩
      obtain ⟨q, hq, _⟩ := hcon
      rw [hf] at hq
      exact Option.noConfusion hq
    · by_cases hjq : IsJoined q
      · constructor
        · intro h i' hi'
          rcases List.mem_cons.mp hi' with rfl | hmem
          · exact ⟨q, hf, hjq⟩
          · exact (ih.mp (by simpa [joinedGate, hf, hjq] using h)) i' hmem
        · intro h
          have := ih.mpr fun i' hi' => h i' (List.mem_cons_of_mem i hi')
          simpa [joinedGate, hf, hjq] using this
      · simp only [joinedGate, hf, hjq, Bool.false_eq_true, if_false, false_iff, not_forall]
        refine ⟨i, List.mem_cons_self i t, fun hcon => ?_⟩
        obtain ⟨q', hq', hj'⟩ := hcon
        rw [hf] at hq'
        obtain rfl := Option.some.inj hq'
        exact hjq (by simpa using hj')

/-- The weight stage never touches the pods. -/
theorem weightSts_pods (env : Env) (g : Sts) (s : RState) :
    (stepState (weightSts env g s)).pods = s.pods := by
  simp only [weightSts]
  repeat' split
  all_goals rfl

/-- Every SetWeight call recorded by the weight stage on a group either
predates the stage or was made after the joined gate held for that group
over the current pods. -/
theorem weightSts_calls (env : Env) (g : Sts) (s : RState) :
    ∀ e ∈ (stepState (weightSts env g s)).trace.setWeightCalls,
      e ∈ s.trace.setWeightCalls ∨ joinedGate s.pods e.1 (List.range e.2.1) = true := by
  intro e he
  simp only [weightSts] at he
  generalize hG : drainedGroup env g (kvGetD g.annotations "tarantool.io/replicaset-weight") = G at he
  by_cases hg : joinedGate s.pods G.name (List.range G.replicas)
  · simp only [hg, if_true] at he
    have hmem : e ∈ s.trace.setWeightCalls ++
        [(G.name, G.replicas, kvGetD G.labels "tarantool.io/replicaset-uuid",
          kvGetD g.annotations "tarantool.io/replicaset-weight")] := by
      rcases hsw : (SetWeight env.weightNet (kvGetD G.labels "tarantool.io/replicaset-uuid")
          (kvGetD g.annotations "tarantool.io/replicaset-weight")).result with m | u
      · simpa [hsw, stepState] using he
      · simpa [hsw, stepState] using he
    rcases List.mem_append.mp hmem with hold | hnew
    · exact Or.inl hold
    · right
      obtain rfl := List.mem_singleton.mp hnew
      exact hg
  · simp only [hg, Bool.false_eq_true, if_false] at he
    exact Or.inl (by simpa [stepState] using he)

/-- The role stage never changes the state it is given. -/
theorem rolesSts_state (env : Env) (g : Sts) (s : RState) :
    stepState (rolesSts env g s) = s := by
  simp only [rolesSts]
  repeat' split
  all_goals rfl

/-- The bootstrap stage never touches pods or trace. -/
theorem bootSts_state (env : Env) (g : Sts) (s : RState) :
    (stepState (bootSts env g s)).pods = s.pods ∧
    (stepState (bootSts env g s)).trace = s.trace := by
  unfold bootSts
  by_cases hb : (kvGetD g.annotations "tarantool.io/isBootstrapped" != "1") = true
  · cases hv : BootstrapVshard env.bootResp with
    | ok u =>
      by_cases hf : (kvGetD g.annotations "tarantool.io/failoverEnabled" == "1") = true
      · simp [hb, hv, hf, stepState]
      · cases hfn : SetFailover env.failoverNet <;> simp [hb, hv, hf, hfn, stepState]
    | error e =>
      cases e <;> simp [hb, hv, stepState]
  · by_cases hf : (kvGetD g.annotations "tarantool.io/failoverEnabled" == "1") = true
    · simp [hb, hf, stepState]
    · cases hfn : SetFailover env.failoverNet <;> simp [hb, hf, hfn, stepState]

/-- The UUID loop never touches the SetWeight trace. -/
theorem uuidLoop_sw (env : Env) (g : Sts) : ∀ (l : List Nat) (s : RState),
    (stepState (uuidLoop env g s l)).trace.setWeightCalls = s.trace.setWeightCalls
  | [], _ => rfl
  | i :: t, s => by
    rcases hf : findPod s.pods (podName g.name i) with _ | p
    · simp [uuidLoop, hf, stepState]
    · by_cases hu : HasInstanceUUID p
      · simpa [uuidLoop, hf, hu] using uuidLoop_sw env g t s
      · simp [uuidLoop, hf, hu, stepState]

/-- The join loop never touches the SetWeight trace. -/
theorem joinLoop_sw (env : Env) (g : Sts) : ∀ (l : List Nat) (s : RState),
    (stepState (joinLoop env g s l)).trace.setWeightCalls = s.trace.setWeightCalls
  | [], _ => rfl
  | i :: t, s => by
    rcases hf : findPod s.pods (podName g.name i) with _ | p
    · simp [joinLoop, hf, stepState]
    · by_cases hjp : IsJoined p
      · simpa [joinLoop, hf, hjp] using joinLoop_sw env g t s
      · cases hJ : Join env.joinNet p with
        | ok u => simp [joinLoop, hf, hjp, hJ, stepState]
        | error e =>
          cases e with
          | alreadyJoined =>
            have ih := joinLoop_sw env g t
              { s with
                pods := replacePod (RState.pods
                  { s with trace := { s.trace with
                      joinAttempts := s.trace.joinAttempts ++ [p.name] } }) (MarkJoined p)
                trace := { s.trace with joinAttempts := s.trace.joinAttempts ++ [p.name] } }
            simpa [joinLoop, hf, hjp, hJ] using ih
          | topologyDown =>
            have ih := joinLoop_sw env g t
              { s with trace := { s.trace with
                  joinAttempts := s.trace.joinAttempts ++ [p.name] } }
            simpa [joinLoop, hf, hjp, hJ] using ih
          | alreadyBootstrapped => simp [joinLoop, hf, hjp, hJ, stepState]
          | other m => simp [joinLoop, hf, hjp, hJ, stepState]

/-- The lifecycle stage body never touches the SetWeight trace. -/
theorem lifecycleSts_sw (env : Env) (g : Sts) (s : RState) :
    (stepState (lifecycleSts env g s)).trace.setWeightCalls = s.trace.setWeightCalls := by
  unfold lifecycleSts
  cases hstep : uuidLoop env g s (List.range g.replicas) with
  | halt g' s' r =>
    have h1 := uuidLoop_sw env g (List.range g.replicas) s
    rw [hstep] at h1
    simpa [stepState] using h1
  | cont g' s₁ =>
    have h1 := uuidLoop_sw env g (List.range g.replicas) s
    rw [hstep] at h1
    have h2 := joinLoop_sw env g' (List.range g'.replicas) s₁
    simp only [stepState] at h1
    rw [h2, h1]

/-- A stage scan over a body that preserves the SetWeight trace preserves
it too. -/
theorem runStage_sw_const (f : Sts → RState → StsStep)
    (hf : ∀ g s, (stepState (f g s)).trace.setWeightCalls = s.trace.setWeightCalls) :
    ∀ (l : List Sts) (s : RState),
      (runStage f l s).2.1.trace.setWeightCalls = s.trace.setWeightCalls
  | [], _ => rfl
  | g :: t, s => by
    cases hstep : f g s with
    | cont g' s' =>
      have h1 := hf g s
      rw [hstep] at h1
      simp only [stepState] at h1
      have ih := runStage_sw_const f hf t s'
      simp [runStage, hstep, ih, h1]
    | halt g' s' r =>
      have h1 := hf g s
      rw [hstep] at h1
      simpa [runStage, hstep, stepState] using h1

/-- A stage scan over a body that preserves the pods preserves them too. -/
theorem runStage_pods_const (f : Sts → RState → StsStep)
    (hf : ∀ g s, (stepState (f g s)).pods = s.pods) :
    ∀ (l : List Sts) (s : RState), (runStage f l s).2.1.pods = s.pods
  | [], _ => rfl
  | g :: t, s => by
    cases hstep : f g s with
    | cont g' s' =>
      have h1 := hf g s
      rw [hstep] at h1
      simp only [stepState] at h1
      have ih := runStage_pods_const f hf t s'
      simp [runStage, hstep, ih, h1]
    | halt g' s' r =>
      have h1 := hf g s
      rw [hstep] at h1
      simpa [runStage, hstep, stepState] using h1

/-- A stage scan over a body that preserves pods and only records gated
SetWeight calls yields only calls that predate it or were gated on the
incoming pods. -/
theorem runStage_calls (f : Sts → RState → StsStep)
    (hp : ∀ g s, (stepState (f g s)).pods = s.pods)
    (hc : ∀ g s, ∀ e ∈ (stepState (f g s)).trace.setWeightCalls,
      e ∈ s.trace.setWeightCalls ∨ joinedGate s.pods e.1 (List.range e.2.1) = true) :
    ∀ (l : List Sts) (s : RState), ∀ e ∈ (runStage f l s).2.1.trace.setWeightCalls,
      e ∈ s.trace.setWeightCalls ∨ joinedGate s.pods e.1 (List.range e.2.1) = true
  | [], _, _, he => Or.inl he
  | g :: t, s, e, he => by
    cases hstep : f g s with
    | cont g' s' =>
      have hps := hp g s
      rw [hstep] at hps
      simp only [stepState] at hps
      have he' : e ∈ (runStage f t s').2.1.trace.setWeightCalls := by
        simpa [runStage, hstep] using he
      rcases runStage_calls f hp hc t s' e he' with h1 | h1
      · have h2 := hc g s e (by simpa [hstep, stepState] using h1)
        exact h2
      · right
        rwa [hps] at h1
    | halt g' s' r =>
      have h2 := hc g s e (by simpa [runStage, hstep, stepState] using he)
      exact h2

/-- C5: starting a pass with no SetWeight calls recorded, every SetWeight
call the pass issues for a group happened only with every member instance
of that group (every pod index of the group) resolved and wearing the
joined marker; since joined markers are never cleared, the gate also holds
over the pods the pass ends with.  In particular a group with any member
instance's joined marker absent receives zero SetWeight calls. -/
theorem c5_weight_gated_on_joined (env : Env) (stss : List Sts) (s : RState)
    (h0 : s.trace.setWeightCalls = [])
    (e : String × Nat × String × String)
    (he : e ∈ (reconcilePass env stss s).state.trace.setWeightCalls) :
    ∀ i ∈ List.range e.2.1,
      ∃ q, findPod (reconcilePass env stss s).state.pods (podName e.1 i) = some q ∧
        IsJoined q = true := by
  rcases hL : runStage (lifecycleSts env) stss s with ⟨l₁, s₁, r₁⟩
  have hs₁sw : s₁.trace.setWeightCalls = [] := by
    have := runStage_sw_const (lifecycleSts env) (lifecycleSts_sw env) stss s
    rw [hL] at this
    simpa [h0] using this
  cases r₁ with
  | some r =>
    have hpass : reconcilePass env stss s = ⟨l₁, s₁, r⟩ := by
      simp [reconcilePass, hL]
    rw [hpass] at he
    simp [hs₁sw] at he
  | none =>
    rcases hW : runStage (weightSts env) l₁ s₁ with ⟨l₂, s₂, r₂⟩
    have hs₂pods : s₂.pods = s₁.pods := by
      have := runStage_pods_const (weightSts env) (weightSts_pods env) l₁ s₁
      rwa [hW] at this
    have hs₂gate : ∀ x ∈ s₂.trace.setWeightCalls,
        joinedGate s₁.pods x.1 (List.range x.2.1) = true := by
      intro x hx
      have := runStage_calls (weightSts env) (weightSts_pods env) (weightSts_calls env) l₁ s₁ x
        (by rw [hW]; exact hx)
      rcases this with h1 | h1
      · rw [hs₁sw] at h1
        exact absurd h1 (List.not_mem_nil x)
      · exact h1
    cases r₂ with
    | some r =>
      have hpass : reconcilePass env stss s = ⟨l₂, s₂, r⟩ := by
        simp [reconcilePass, hL, hW]
      rw [hpass] at he ⊢
      have := hs₂gate e he
      rw [← hs₂pods] at this
      exact (joinedGate_spec s₂.pods e.1 (List.range e.2.1)).mp this
    | none =>
      rcases hR : runStage (rolesSts env) l₂ s₂ with ⟨l₃, s₃, r₃⟩
      have hs₃ : s₃ = s₂ := by
        have hst : ∀ g s', stepState (rolesSts env g s') = s' := rolesSts_state env
        have hp := runStage_pods_const (rolesSts env) (fun g s' => by rw [hst g s']) l₂ s₂
        -- the whole state is preserved, recover it componentwise
        have hsw := runStage_sw_const (rolesSts env)
          (fun g s' => by rw [hst g s']) l₂ s₂
        -- derive full equality by a dedicated scan
        clear hp hsw
        have : ∀ (l : List Sts) (s' : RState), (runStage (rolesSts env) l s').2.1 = s' := by
          intro l
          induction l with
          | nil => intro s'; rfl
          | cons g t ih =>
            intro s'
            cases hstep : rolesSts env g s' with
            | cont g' s'' =>
              have h1 := hst g s'
              rw [hstep] at h1
              simp only [stepState] at h1
              simp [runStage, hstep, ih, h1]
            | halt g' s'' r =>
              have h1 := hst g s'
              rw [hstep] at h1
              simpa [runStage, hstep, stepState] using h1
        have h2 := this l₂ s₂
        rw [hR] at h2
        exact h2
      cases r₃ with
      | some r =>
        have hpass : reconcilePass env stss s = ⟨l₃, s₃, r⟩ := by
          simp [reconcilePass, hL, hW, hR]
        rw [hpass] at he ⊢
        rw [hs₃] at he ⊢
        have := hs₂gate e he
        rw [← hs₂pods] at this
        exact (joinedGate_spec s₂.pods e.1 (List.range e.2.1)).mp this
      | none =>
        rcases hB : runStage (bootSts env) l₃ s₃ with ⟨l₄, s₄, r₄⟩
        have hs₄pods : s₄.pods = s₃.pods := by
          have := runStage_pods_const (bootSts env) (fun g s' => (bootSts_state env g s').1) l₃ s₃
          rwa [hB] at this
        have hs₄sw : s₄.trace.setWeightCalls = s₃.trace.setWeightCalls := by
          have := runStage_sw_const (bootSts env)
            (fun g s' => by rw [(bootSts_state env g s').2]) l₃ s₃
          rwa [hB] at this
        have hpass : reconcilePass env stss s =
            ⟨l₄, s₄, r₄.getD .ok⟩ := by
          cases r₄ <;> simp [reconcilePass, hL, hW, hR, hB]
        rw [hpass] at he ⊢
        rw [hs₄sw, hs₃] at he
        have := hs₂gate e he
        rw [← hs₂pods] at this
        have hfin : s₄.pods = s₂.pods := by rw [hs₄pods, hs₃]
        rw [← hfin] at this
        exact (joinedGate_spec s₄.pods e.1 (List.range e.2.1)).mp this

/-- C5 witness: a pass that does issue a SetWeight call for group "a":
both pods of the group are resolved and joined at the end of the pass. -/
theorem c5_weight_gated_on_joined_witness :
    ((("a", 2, "ru", "1") : String × Nat × String × String) ∈
      (reconcilePass envBase [stsWeighted] stateJoined).state.trace.setWeightCalls) ∧
    (∀ i ∈ List.range 2,
      ∃ q, findPod (reconcilePass envBase [stsWeighted] stateJoined).state.pods
        (podName "a" i) = some q ∧ IsJoined q = true) :=
  ⟨by decide,
   c5_weight_gated_on_joined envBase [stsWeighted] stateJoined rfl ("a", 2, "ru", "1")
    (by decide)⟩

/-! ## C8: role derivation -/

/-- Rebuilding a string from its characters. -/
theorem string_mk_data (s : String) : String.mk s.data = s := by cases s; rfl

/-- skipWs keeps a list headed by a non-whitespace character. -/
theorem skipWs_cons_of_not (c : Char) (t : List Char) (h : jsonWs c = false) :
    skipWs (c :: t) = c :: t := by simp [skipWs, h]

/-- JSON encoding of a string without quote or backslash characters. -/
def jsonQuote (s : String) : String := String.mk ('"' :: s.data ++ ['"'])

/-- The characters of a JSON array of such strings, after the opening
bracket. -/
def encElems : List String → List Char
  | [] => [']']
  | [s] => '"' :: s.data ++ '"' :: [']']
  | s :: t => '"' :: s.data ++ '"' :: ',' :: encElems t

/-- JSON encoding of an array of strings without quote or backslash
characters. -/
def jsonQuoteArr (rs : List String) : String := String.mk ('[' :: encElems rs)

/-- The string-literal body parser consumes exactly the simple characters
up to the closing quote. -/
theorem parseStrBody_simple : ∀ (cs rest : List Char),
    (∀ c ∈ cs, c ≠ '"' ∧ c ≠ '\\') →
    parseStrBody (cs ++ '"' :: rest) = some (cs, rest)
  | [], rest, _ => rfl
  | c :: t, rest, h => by
    obtain ⟨h1, h2⟩ := h c (List.mem_cons_self c t)
    have ih := parseStrBody_simple t rest fun x hx => h x (List.mem_cons_of_mem c hx)
    simp [parseStrBody, h1, h2, ih]

/-- Unmarshalling a JSON-encoded simple string returns the string. -/
theorem jsonUnmarshalStr_quote (r : String) (h : ∀ c ∈ r.data, c ≠ '"' ∧ c ≠ '\\') :
    jsonUnmarshalStr (jsonQuote r) = some r := by
  have hts : (jsonQuote r).toList = '"' :: (r.data ++ '"' :: []) := by
    simp [jsonQuote]
  unfold jsonUnmarshalStr
  rw [hts, skipWs_cons_of_not _ _ (by decide)]
  simp [parseStrBody_simple r.data [] h, skipWs, string_mk_data]

/-- One element of an encoded array parses back to the string. -/
theorem parseElem_quote (s : String) (rest : List Char)
    (h : ∀ c ∈ s.data, c ≠ '"' ∧ c ≠ '\\') :
    parseElem ('"' :: (s.data ++ '"' :: rest)) = some (s, rest) := by
  unfold parseElem
  rw [skipWs_cons_of_not _ _ (by decide)]
  simp [parseStrBody_simple s.data rest h, string_mk_data]

/-- The encoded elements are at least as many characters as elements. -/
theorem encElems_len : ∀ (rs : List String), rs.length ≤ (encElems rs).length
  | [] => by simp [encElems]
  | [s] => by simp [encElems]
  | s :: t :: u => by
    have ih := encElems_len (t :: u)
    simp [encElems] at ih ⊢
    omega

/-- The element parser recovers the encoded list given enough fuel. -/
theorem parseElems_enc : ∀ (rs : List String), rs ≠ [] →
    (∀ x ∈ rs, ∀ c ∈ x.data, c ≠ '"' ∧ c ≠ '\\') →
    ∀ (fuel : Nat), rs.length ≤ fuel →
    parseElems fuel (encElems rs) = some (rs, [])
  | [], hne, _, _, _ => absurd rfl hne
  | [s], _, h, fuel, hf => by
    have hf1 : 1 ≤ fuel := by simpa using hf
    obtain ⟨f, rfl⟩ : ∃ f, fuel = f + 1 := ⟨fuel - 1, by omega⟩
    have he : encElems [s] = '"' :: (s.data ++ '"' :: [']']) := by simp [encElems]
    rw [he]
    simp only [parseElems, parseElem_quote s [']'] (h s (List.mem_singleton.mpr rfl))]
    rw [skipWs_cons_of_not _ _ (by decide)]
    rfl
  | s :: t :: u, _, h, fuel, hf => by
    have hf1 : 1 ≤ fuel := by simp at hf; omega
    obtain ⟨f, rfl⟩ : ∃ f, fuel = f + 1 := ⟨fuel - 1, by omega⟩
    have ih := parseElems_enc (t :: u) (by simp)
      (fun x hx => h x (List.mem_cons_of_mem s hx)) f (by simp at hf ⊢; omega)
    have he : encElems (s :: t :: u) = '"' :: (s.data ++ '"' :: ',' :: encElems (t :: u)) := by
      simp [encElems]
    rw [he]
    simp only [parseElems, parseElem_quote s (',' :: encElems (t :: u))
      (h s (List.mem_cons_self s (t :: u)))]
    rw [skipWs_cons_of_not _ _ (by decide)]
    simp [ih]

/-- The string decoder rejects an encoded array. -/
theorem jsonUnmarshalStr_arr (rs : List String) :
    jsonUnmarshalStr (jsonQuoteArr rs) = none := by
  unfold jsonUnmarshalStr
  rw [show (jsonQuoteArr rs).toList = '[' :: encElems rs from rfl,
      skipWs_cons_of_not _ _ (by decide)]
  rfl

/-- Unmarshalling a JSON-encoded array of simple strings returns the
list. -/
theorem jsonUnmarshalStrList_arr : ∀ (rs : List String),
    (∀ x ∈ rs, ∀ c ∈ x.data, c ≠ '"' ∧ c ≠ '\\') →
    jsonUnmarshalStrList (jsonQuoteArr rs) = some rs
  | [], _ => by decide
  | s :: tl, h => by
    obtain ⟨rest, hrest⟩ : ∃ rest, encElems (s :: tl) = '"' :: rest := by
      cases tl <;> exact ⟨_, rfl⟩
    have hp := parseElems_enc (s :: tl) (by simp) h ((encElems (s :: tl)).length + 1)
      (le_trans (encElems_len (s :: tl)) (Nat.le_succ _))
    unfold jsonUnmarshalStrList
    rw [show (jsonQuoteArr (s :: tl)).toList = '[' :: encElems (s :: tl) from rfl,
        skipWs_cons_of_not _ _ (by decide)]
    rw [hrest] at hp ⊢
    simp only [List.length_cons] at hp
    simp [skipWs, jsonWs, hp]

/-- C8 (amended): role derivation reads the specification from the
annotation first (a JSON-encoded single string yields the one-element
list, a JSON array yields that array, labels never consulted), falls back
to the label (dot-separated split), and errors when both are absent;
an annotation that decodes as neither a JSON string nor a JSON array is a
hard input error — with the exception of the JSON literal null, which Go
json.Unmarshal applies to a string target as a documented no-op, so
GetRoles returns the one-element list containing the empty string instead
of an error. -/
theorem c8_roles_derivation :
    (∀ (labels annotations : KVMap) (r : String),
      kvGet annotations "tarantool.io/rolesToAssign" = some (jsonQuote r) →
      (∀ c ∈ r.data, c ≠ '"' ∧ c ≠ '\\') →
      GetRoles labels annotations = .ok [r]) ∧
    (∀ (labels annotations : KVMap) (rs : List String),
      kvGet annotations "tarantool.io/rolesToAssign" = some (jsonQuoteArr rs) →
      (∀ x ∈ rs, ∀ c ∈ x.data, c ≠ '"' ∧ c ≠ '\\') →
      GetRoles labels annotations = .ok rs) ∧
    (∀ (labels annotations : KVMap) (r : String),
      kvGet annotations "tarantool.io/rolesToAssign" = none →
      kvGet labels "tarantool.io/rolesToAssign" = some r →
      GetRoles labels annotations = .ok (splitDots r)) ∧
    (∀ (labels annotations : KVMap),
      kvGet annotations "tarantool.io/rolesToAssign" = none →
      kvGet labels "tarantool.io/rolesToAssign" = none →
      GetRoles labels annotations = .error "role undefined") ∧
    (∀ (labels annotations : KVMap) (a : String),
      kvGet annotations "tarantool.io/rolesToAssign" = some a →
      jsonUnmarshalStr a = none → jsonUnmarshalStrList a = none →
      GetRoles labels annotations = .error "failed to parse roles from annotations") ∧
    (∀ (labels annotations : KVMap),
      kvGet annotations "tarantool.io/rolesToAssign" = some "null" →
      GetRoles labels annotations = .ok [""]) := by
  refine ⟨?_, ?_, ?_, ?_, ?_, ?_⟩
  · intro la ann r ha hs
    simp [GetRoles, ha, jsonUnmarshalStr_quote r hs]
  · intro la ann rs ha hs
    simp [GetRoles, ha, jsonUnmarshalStr_arr rs, jsonUnmarshalStrList_arr rs hs]
  · intro la ann r ha hl
    simp [GetRoles, ha, hl]
  · intro la ann ha hl
    simp [GetRoles, ha, hl]
  · intro la ann a ha h1 h2
    simp [GetRoles, ha, h1, h2]
  · intro la ann ha
    simp [GetRoles, ha, show jsonUnmarshalStr "null" = some "" from by decide]

/-- C8 witness: concrete derivations of every branch. -/
theorem c8_roles_derivation_witness :
    GetRoles [] [("tarantool.io/rolesToAssign", jsonQuote "storage")] = .ok ["storage"] ∧
    GetRoles [] [("tarantool.io/rolesToAssign", jsonQuoteArr ["a", "b"])] = .ok ["a", "b"] ∧
    GetRoles [("tarantool.io/rolesToAssign", "a.b")] [] = .ok (splitDots "a.b") ∧
    GetRoles [] [] = .error "role undefined" ∧
    GetRoles [] [("tarantool.io/rolesToAssign", "123")] =
      .error "failed to parse roles from annotations" ∧
    GetRoles [] [("tarantool.io/rolesToAssign", "null")] = .ok [""] :=
  ⟨c8_roles_derivation.1 [] _ "storage" (by decide) (by decide),
   c8_roles_derivation.2.1 [] _ ["a", "b"] (by decide) (by decide),
   c8_roles_derivation.2.2.1 [("tarantool.io/rolesToAssign", "a.b")] [] "a.b" (by decide) (by decide),
   c8_roles_derivation.2.2.2.1 [] [] (by decide) (by decide),
   c8_roles_derivation.2.2.2.2.1 [] _ "123" (by decide) (by decide) (by decide),
   c8_roles_derivation.2.2.2.2.2 [] _ (by decide)⟩
